import Mathlib

/-!
Verification of the NetApp health-check script (`netapp_health_check.py`).

The Python source is shallowly embedded below.  Strings are Lean `String`s,
and the handful of Python string primitives the script uses (`strip`,
`splitlines`, `lower`, `in` (substring), `str.join`, `str.replace` of the
newline character) are re-implemented as structurally recursive functions on
the underlying character lists so that every definition evaluates by kernel
reduction.  All functions originate from the source file; doc comments cite
the Python symbol each one embeds.
-/

namespace NetAppHealth

/-- Python `needle in haystack` (substring containment).  Note that the empty
string is a substring of every string, exactly as in Python. -/
def listTails : List Char → List (List Char)
  | [] => [[]]
  | c :: rest => (c :: rest) :: listTails rest

/-- Python `pat in s` for strings. -/
def strContains (s pat : String) : Bool :=
  (listTails s.data).any (fun t => pat.data.isPrefixOf t)

/-- Python `str.strip()` (whitespace at both ends). -/
def strTrim (s : String) : String :=
  String.mk (((s.data.dropWhile Char.isWhitespace).reverse.dropWhile Char.isWhitespace).reverse)

/-- Python `str.lower()` (ASCII case folding, which is all the script's
vendor-CLI inputs use). -/
def strLower (s : String) : String :=
  String.mk (s.data.map Char.toLower)

/-- Helper for `splitlines`. -/
def splitlinesAux : List Char → List Char → List String
  | [], cur => [String.mk cur.reverse]
  | c :: rest, cur =>
    if c = '\n' then String.mk cur.reverse :: splitlinesAux rest []
    else splitlinesAux rest (c :: cur)

/-- Python `str.splitlines()` for `\n`-separated text.  (Python drops a
trailing empty segment; this version keeps it.  Every consumer in the script
filters blank lines away first, so the difference is unobservable in the
functions verified here.) -/
def splitlines (s : String) : List String := splitlinesAux s.data []

/-- Python `sep.join(xs)`. -/
def joinWith (sep : String) : List String → String
  | [] => ""
  | [x] => x
  | x :: y :: rest => x ++ sep ++ joinWith sep (y :: rest)

/-- Python `msg.replace(chr(10), "<br>")` (single-character pattern, so a
character-wise expansion is exact). -/
def replaceNewlines (s : String) : String :=
  String.mk ((s.data.map (fun c => if c = '\n' then "<br>".data else [c])).flatten)

/-- The sentinel sentence checked by both table parsers
(`netapp_health_check.py`, lines 100 and 108). -/
def tableSentinel : String := "There are no entries matching your query"

/-- The shared line-splitting of both table parsers:
`[line.strip() for line in output.splitlines() if line.strip()]`. -/
def dataLines (output : String) : List String :=
  ((splitlines output).map strTrim).filter (fun l => !(l == ""))

/-- `parse_lun_output` (lines 99-104). -/
def parse_lun_output (output : String) : String × Bool :=
  if strTrim output = "" ∨ strContains output tableSentinel = true then ("None", false)
  else (joinWith "\n" (dataLines output), true)

/-- `parse_volume_output` (lines 107-112): same sentinel test, but the first
two data lines (column headers) are dropped and the flag is
`len(data_lines) > 2`. -/
def parse_volume_output (output : String) : String × Bool :=
  if strTrim output = "" ∨ strContains output tableSentinel = true then ("None", false)
  else
    (joinWith "\n" ((dataLines output).drop 2),
      if 2 < (dataLines output).length then true else false)

/-- `run_commands`, branch for `system health alert show` (line 143):
`{"message": "None" if "empty" in output else output, "show_cmd": "empty" not in output}`.
The containment test is on the raw (already stripped) output, case-sensitively. -/
def classifyHealthAlert (output : String) : String × Bool :=
  ((if strContains output "empty" = true then "None" else output),
    !(strContains output "empty"))

/-- `run_commands`, branch for `disk show -broken`, `df -i ...`,
`storage shelf show -errors`, `job show -state failure` (line 154). -/
def classifyDiskLike (output : String) : String × Bool :=
  ((if strContains (strLower output) "no entries" = true then "None" else output),
    !(strContains (strLower output) "no entries"))

/-- `run_commands`, branch for `net int show -is-home false` (line 157). -/
def classifyNetInt (output : String) : String × Bool :=
  ((if strContains (strLower output) "no entries" = true then "All at home" else output),
    !(strContains (strLower output) "no entries"))

/-- `run_commands`, branch for `event log show ...` (line 160). -/
def classifyEventLog (output : String) : String × Bool :=
  ((if strContains (strLower output) "no entries" = true then "None" else output),
    !(strContains (strLower output) "no entries"))

/-- `skip_keywords` (line 166).  Note the final empty string: Python's
substring test `"" in line` is `True` for every `line`. -/
def skipKeywords : List String :=
  ["Last login", "Takeover", "Node", "----", "entries were displayed", ""]

/-- The boilerplate-stripping loop of the `storage failover show` branch
(lines 165-172). -/
def cleanedLines (output : String) : List String :=
  ((splitlines output).map strTrim).filter
    (fun l => !(l == "") && !(skipKeywords.any (fun k => strContains l k)))

/-- The wrapped-row re-merging loop (lines 175-184): a line containing
neither "true" nor "connected" (case-insensitive) is glued to the following
line when one exists. -/
def mergeLines : List String → List String
  | [] => []
  | [x] => [x]
  | x :: y :: rest =>
    if !(strContains (strLower x) "true") && !(strContains (strLower x) "connected") then
      (x ++ " " ++ y) :: mergeLines rest
    else
      x :: mergeLines (y :: rest)

/-- `\w` character class of Python's `re` module (ASCII part). -/
def isWordChar (c : Char) : Bool := c.isAlphanum || c == '_'

/-- Scan for a word-boundary-delimited occurrence of `w`; the Boolean argument
records whether the current position sits at a word boundary. -/
def hasWordAux (w : List Char) : List Char → Bool → Bool
  | [], _ => false
  | c :: rest, boundary =>
    (boundary && w.isPrefixOf (c :: rest) &&
      (match (c :: rest).drop w.length with
       | [] => true
       | d :: _ => !isWordChar d))
    || hasWordAux w rest (!isWordChar c)

/-- `re.search(r"\b(true|false)\b", line, re.IGNORECASE)` (line 188). -/
def hasBoolWord (line : String) : Bool :=
  hasWordAux "true".data (strLower line).data true
    || hasWordAux "false".data (strLower line).data true

/-- `node_status_lines` (lines 186-189). -/
def nodeStatusLines (output : String) : List String :=
  (mergeLines (cleanedLines output)).filter hasBoolWord

/-- The classification result of the `storage failover show` branch
(lines 162-204). -/
def failoverClassify (output : String) : String × Bool :=
  if (nodeStatusLines output).isEmpty = true then ("Healthy", false)
  else if (nodeStatusLines output).all
      (fun l => strContains (strLower l) "true" && strContains (strLower l) "connected") = true then
    ("Healthy", false)
  else (joinWith "<br>" (nodeStatusLines output), true)

/-- The fixed command catalog of `run_commands` (lines 125-136). -/
def commandsList : List String :=
  ["system health alert show",
   "vol show -state offline",
   "lun show -state offline",
   "df -i -percent-inodes-used >90",
   "disk show -broken",
   "net int show -is-home false",
   "event log show -severity EMERGENCY -time >2d -event !secd.ldap.noServers*,!secd.lsa.noServers*,!secd.netlogon.noServers*",
   "storage failover show",
   "storage shelf show -errors",
   "job show -state failure"]

/-- Python `cmd.startswith(pre)`. -/
def strStartsWith (s pre : String) : Bool := pre.data.isPrefixOf s.data

/-- The per-command classification dispatch of `run_commands` (the
`if cmd == ... / elif ...` chain, lines 142-204), as a function of the
stripped command output.  `none` mirrors the chain recording nothing for a
command matching no branch. -/
def classifyCommand (cmd output : String) : Option (String × Bool) :=
  if cmd = "system health alert show" then some (classifyHealthAlert output)
  else if cmd = "vol show -state offline" then some (parse_volume_output output)
  else if cmd = "lun show -state offline" then some (parse_lun_output output)
  else if cmd = "disk show -broken" ∨ cmd = "df -i -percent-inodes-used >90"
      ∨ cmd = "storage shelf show -errors" ∨ cmd = "job show -state failure" then
    some (classifyDiskLike output)
  else if cmd = "net int show -is-home false" then some (classifyNetInt output)
  else if strStartsWith cmd "event log show" = true then some (classifyEventLog output)
  else if cmd = "storage failover show" then some (failoverClassify output)
  else none

/-- One cluster's per-command results (`results` dict of `run_commands`). -/
abbrev ResultsMap := List (String × (String × Bool))

/-- The command loop of `run_commands` (lines 138-207).  `exec` abstracts
`client.exec_command` + `stdout.read().decode()`; a raised exception is an
`Except.error`.  On the first exception the whole bundle collapses to
`(None, str(e))`, discarding the accumulated partial results, exactly as the
`try/except` around the loop does. -/
def runCommandsGo (exec : String → Except String String) :
    List String → ResultsMap → Option ResultsMap × Option String
  | [], acc => (some acc.reverse, none)
  | c :: rest, acc =>
    match exec c with
    | Except.error e => (none, some e)
    | Except.ok out =>
      match classifyCommand c (strTrim out) with
      | some r => runCommandsGo exec rest ((c, r) :: acc)
      | none => runCommandsGo exec rest acc

/-- `run_commands` (lines 118-210): `connect` abstracts
`paramiko.SSHClient.connect`; a connect/auth exception short-circuits to
`(None, str(e))` before any command runs. -/
def run_commands (connect : Except String Unit) (exec : String → Except String String) :
    Option ResultsMap × Option String :=
  match connect with
  | Except.error e => (none, some e)
  | Except.ok _ => runCommandsGo exec commandsList []

/-- One cluster's entry in `all_results`: the possible `"results"` key and
the possible `"error"` key of the per-cluster dict.  (The `"error"` value is
itself optional because Python could store `None` there.) -/
abbrev Entry := Option ResultsMap × Option (Option String)

/-- `all_results[name] = {"results": results} if results else {"error": error}`
(line 370): the `"results"` key is used only when `results` is truthy
(non-`None` and non-empty). -/
def mkEntry (p : Option ResultsMap × Option String) : Entry :=
  match p.1 with
  | some rs => if rs.isEmpty = true then (none, some p.2) else (some rs, none)
  | none => (none, some p.2)

/-- `(e.1.isSome = true ∧ e.2 = none) ∨ (e.1 = none ∧ e.2.isSome = true)`:
a cluster entry holds exactly one of the `"results"` / `"error"` keys. -/
abbrev entryExactlyOne (e : Entry) : Prop :=
  (e.1.isSome = true ∧ e.2 = none) ∨ (e.1 = none ∧ e.2.isSome = true)

/-- Python value model for YAML scalars reaching the `enabled` flag. -/
inductive PyVal where
  | pybool (b : Bool)
  | pyint (n : Int)
  | pystr (s : String)
  | pynone
deriving DecidableEq

/-- A YAML value reaching the `to` / `cc` fields: either a scalar address or
a list of addresses (elements modelled as the strings `str(x)` yields). -/
inductive RecipVal where
  | scalar (s : String)
  | strlist (l : List String)
deriving DecidableEq

/-- The configuration fields of one entry of `clusters` that the verified
code reads (`name`, `enabled`, `to`, `cc`); a missing key is `none`. -/
structure ClusterCfg where
  name : String
  enabled : Option PyVal := none
  toRecips : Option RecipVal := none
  ccRecips : Option RecipVal := none
deriving DecidableEq

/-- `defaults` configuration (`to`, `cc`). -/
structure DefaultsCfg where
  toRecips : Option RecipVal := none
  ccRecips : Option RecipVal := none
deriving DecidableEq

/-- `_ensure_list` (lines 305-310). -/
def ensure_list : Option RecipVal → List String
  | none => []
  | some (RecipVal.scalar s) => [s]
  | some (RecipVal.strlist l) => l

/-- `resolve_recipients` (lines 313-316): Python `a or b` on lists falls back
to `b` exactly when `a` is empty, independently for `to` and `cc`. -/
def resolve_recipients (c : ClusterCfg) (d : DefaultsCfg) : List String × List String :=
  ((if (ensure_list c.toRecips).isEmpty = true then ensure_list d.toRecips else ensure_list c.toRecips),
   (if (ensure_list c.ccRecips).isEmpty = true then ensure_list d.ccRecips else ensure_list c.ccRecips))

/-- `send_email` (lines 280-302), reduced to its recipient check: the raise
at lines 296-298 happens before `smtplib.SMTP` is entered, so an empty
recipient set errors instead of sending.  On success the value is the
recipient list handed to `server.sendmail`. -/
def send_email (to_list cc_list : List String) : Except String (List String) :=
  if (to_list ++ cc_list).isEmpty = true then
    Except.error "No recipients resolved (both To and Cc are empty)."
  else Except.ok (to_list ++ cc_list)

/-- `c.get("enabled", True) is False` (line 352): only the Python boolean
`False` satisfies the identity test; a missing key defaults to `True`. -/
def enabled_is_false (c : ClusterCfg) : Bool :=
  match c.enabled with
  | some (PyVal.pybool false) => true
  | _ => false

/-- The command-line arguments the verified part of `main` reads. -/
structure Args where
  perClusterEmail : Bool
  combinedEmail : Bool
  clusterFilter : List String
deriving DecidableEq

/-- The cluster-selection loop of `main` (lines 349-356). -/
def filterClusters (selected : List String) (clusters : List ClusterCfg) : List ClusterCfg :=
  clusters.filter
    (fun c => !(enabled_is_false c) && (selected.isEmpty || selected.contains c.name))

/-- `main` (lines 322-370) up to and including the aggregation loop, with the
per-cluster scan abstracted as `scan` (which stands for
`run_commands(ip, username, password)` for the named cluster).  The
mutual-exclusion check of lines 332-333 fires before any scan. -/
def mainAggregate (args : Args) (clusters : List ClusterCfg)
    (scan : String → Option ResultsMap × Option String) :
    Except String (List (String × Entry)) :=
  if (args.perClusterEmail && args.combinedEmail) = true then
    Except.error "Choose either --per-cluster-email OR --combined-email, not both."
  else
    if (filterClusters args.clusterFilter clusters).isEmpty = true then
      Except.error "No clusters selected (check --cluster filter / enabled flags)."
    else
      Except.ok ((filterClusters args.clusterFilter clusters).map
        (fun c => (c.name, mkEntry (scan c.name))))

/-- The keys one entry contributes to the column set of `build_html_report`
(lines 237-239): only an entry whose `"results"` key is present and truthy
contributes. -/
def entryKeys : Option ResultsMap → List String
  | some rs => if rs.isEmpty = true then [] else rs.map Prod.fst
  | none => []

/-- The column-set computation of `build_html_report` (lines 236-240). -/
def observedCommands (data : List (String × Entry)) : List String :=
  data.flatMap (fun p => entryKeys p.2.1)

/-- `all_commands = sorted(list(set(...)))` (line 240). -/
def reportColumns (data : List (String × Entry)) : List String :=
  List.insertionSort (fun a b => a ≤ b) (observedCommands data).dedup

/-- One rendered table cell of `build_html_report` (lines 264-270). -/
inductive Cell where
  | na : Cell
  | alarm (msg : String) : Cell
  | plain (msg : String) : Cell
deriving DecidableEq

/-- One rendered table row of `build_html_report` (lines 258-271): an error
entry yields a single cell spanning all data columns; a results entry yields
one cell per column. -/
inductive ReportRow where
  | errorRow (cluster : String) (span : Nat) (text : Option String) : ReportRow
  | dataRow (cluster : String) (cells : List Cell) : ReportRow
deriving DecidableEq

/-- The per-column cell choice (lines 264-270): `"N/A"` when the bundle lacks
the command, styled alarm text (with newlines turned into `<br>`) when
`show_cmd` is set, the plain message otherwise. -/
def renderCell (rs : ResultsMap) (cmd : String) : Cell :=
  match rs.lookup cmd with
  | none => Cell.na
  | some (msg, flagged) =>
    if flagged = true then Cell.alarm (replaceNewlines msg) else Cell.plain msg

/-- The row construction of `build_html_report` for one cluster
(lines 258-271), given the already-computed column list. -/
def rowFor (cols : List String) (p : String × Entry) : ReportRow :=
  match p.2.2 with
  | some e => ReportRow.errorRow p.1 cols.length e
  | none => ReportRow.dataRow p.1 (cols.map (renderCell (p.2.1.getD [])))

/-- All rows of the report table of `build_html_report`. -/
def buildReportRows (data : List (String × Entry)) : List ReportRow :=
  data.map (rowFor (reportColumns data))

/-! ## Shared lemmas -/

/-- The empty pattern is a substring of every string (Python semantics of
`"" in s`). -/
theorem strContains_empty_pat (s : String) : strContains s "" = true := by
  obtain ⟨data⟩ := s
  cases data <;> rfl

/-- Because `skip_keywords` ends with the empty string, the boilerplate
filter of the failover branch removes every line. -/
theorem cleanedLines_eq_nil (output : String) : cleanedLines output = [] := by
  unfold cleanedLines
  apply List.filter_eq_nil_iff.mpr
  intro l _
  simp [skipKeywords, strContains_empty_pat]

/-- Consequence: the `storage failover show` branch classifies every raw
output as `("Healthy", false)`. -/
theorem failoverClassify_always_healthy (output : String) :
    failoverClassify output = ("Healthy", false) := by
  unfold failoverClassify nodeStatusLines
  rw [cleanedLines_eq_nil]
  rfl

/-! ## Claim theorems -/

/-- Claim C1, code-bug evaluation.  The failover output below has a node-status
row (`"node1 node2 false Waiting for giveback"`) that, as raw text, fails the
`true ∧ connected` conjunction (second conjunct), so the claim and the spec
require `flagged = true` with all node-status rows joined by `<br>`.  The code
instead returns `("Healthy", false)`: the empty string in `skip_keywords`
substring-matches every line, so no line ever survives the boilerplate filter
and the health evaluation is dead code. -/
theorem failover_violating_row_reported_healthy :
    failoverClassify
        "node2 node1 true Connected to node1\nnode1 node2 false Waiting for giveback"
      = ("Healthy", false)
    ∧ (strContains (strLower "node1 node2 false Waiting for giveback") "true"
        && strContains (strLower "node1 node2 false Waiting for giveback") "connected") = false :=
  ⟨failoverClassify_always_healthy _, by decide⟩

/-- Claim C5.  If the strip/merge/filter pipeline leaves zero node-status rows,
the failover branch reports exactly `("Healthy", false)` (lines 191-193). -/
theorem failover_no_status_rows_healthy (output : String)
    (h : nodeStatusLines output = []) :
    failoverClassify output = ("Healthy", false) := by
  simp [failoverClassify, h]

/-- Witness for C5 at the concrete raw output `""`. -/
theorem failover_no_status_rows_healthy_witness :
    failoverClassify "" = ("Healthy", false) :=
  failover_no_status_rows_healthy "" rfl

/-- Claim C2, counterexample.  The claim says an empty trimmed output, or one
containing the sentinel case-insensitively, yields `flagged = false`.  The
code disagrees twice: the empty output is classified `flagged = true` (the
sentinel test fails on `""`), and the health-alert sentinel `"empty"` is
matched case-sensitively, so the output `"EMPTY"` is also flagged. -/
theorem non_table_empty_and_case_counterexample :
    classifyCommand "disk show -broken" "" = some ("", true)
    ∧ classifyCommand "system health alert show" "EMPTY" = some ("EMPTY", true) :=
  ⟨rfl, rfl⟩

set_option maxRecDepth 8000 in
/-- Claim C2, amended.  For every non-table command, the classifier returns
`flagged = false` with the command-specific nothing-wrong phrase exactly when
the stripped output contains the command's sentinel as the code checks it —
`"no entries"` case-insensitively for disks/inodes/shelves/jobs/LIFs/events,
the lowercase literal `"empty"` case-sensitively for health alerts; any other
output, including the empty string, yields `flagged = true` with the stripped
output as the message, verbatim.  (`out` is the already-stripped output that
`run_commands` passes to the classification chain.) -/
theorem non_table_classifier_spec (out : String) :
    classifyCommand "system health alert show" out =
      some (if strContains out "empty" = true then ("None", false) else (out, true))
    ∧ classifyCommand "disk show -broken" out =
      some (if strContains (strLower out) "no entries" = true then ("None", false)
            else (out, true))
    ∧ classifyCommand "df -i -percent-inodes-used >90" out =
      some (if strContains (strLower out) "no entries" = true then ("None", false)
            else (out, true))
    ∧ classifyCommand "storage shelf show -errors" out =
      some (if strContains (strLower out) "no entries" = true then ("None", false)
            else (out, true))
    ∧ classifyCommand "job show -state failure" out =
      some (if strContains (strLower out) "no entries" = true then ("None", false)
            else (out, true))
    ∧ classifyCommand "net int show -is-home false" out =
      some (if strContains (strLower out) "no entries" = true then ("All at home", false)
            else (out, true))
    ∧ classifyCommand
        "event log show -severity EMERGENCY -time >2d -event !secd.ldap.noServers*,!secd.lsa.noServers*,!secd.netlogon.noServers*"
        out =
      some (if strContains (strLower out) "no entries" = true then ("None", false)
            else (out, true)) := by
  have h1 : classifyCommand "system health alert show" out = some (classifyHealthAlert out) := rfl
  have h2 : classifyCommand "disk show -broken" out = some (classifyDiskLike out) := rfl
  have h3 : classifyCommand "df -i -percent-inodes-used >90" out
      = some (classifyDiskLike out) := rfl
  have h4 : classifyCommand "storage shelf show -errors" out
      = some (classifyDiskLike out) := rfl
  have h5 : classifyCommand "job show -state failure" out
      = some (classifyDiskLike out) := rfl
  have h6 : classifyCommand "net int show -is-home false" out
      = some (classifyNetInt out) := rfl
  have h7 : classifyCommand
      "event log show -severity EMERGENCY -time >2d -event !secd.ldap.noServers*,!secd.lsa.noServers*,!secd.netlogon.noServers*"
      out = some (classifyEventLog out) := rfl
  rw [h1, h2, h3, h4, h5, h6, h7]
  cases ha : strContains out "empty"
    <;> cases hb : strContains (strLower out) "no entries"
    <;> simp [classifyHealthAlert, classifyDiskLike, classifyNetInt, classifyEventLog, ha, hb]

/-- Witness for the amended C2 at the concrete stripped output
`"No Entries Found"` (sentinel present case-insensitively). -/
theorem non_table_classifier_spec_witness :
    classifyCommand "net int show -is-home false" "No Entries Found"
      = some ("All at home", false) :=
  ((non_table_classifier_spec "No Entries Found").2.2.2.2.2.1).trans (by decide)

/-- Claim C3, counterexample.  In the output below, the second data row
contains the claim's sentinel substring `"no entries matching your query"`
(first conjunct), yet both table parsers classify the output as the
empty-result case `("None", false)` — the sentinel is matched against the
whole output, and the row happens to contain the full sentinel sentence. -/
theorem table_sentinel_in_data_row_counterexample :
    ((dataLines "vol1 offline\nThere are no entries matching your query").any
      (fun l => strContains l "no entries matching your query")) = true
    ∧ parse_lun_output "vol1 offline\nThere are no entries matching your query"
        = ("None", false)
    ∧ parse_volume_output "vol1 offline\nThere are no entries matching your query"
        = ("None", false) :=
  ⟨rfl, rfl, rfl⟩

/-- Claim C3, amended.  Sentinel matching is evaluated against the whole raw
output before line splitting, so an output containing the full sentinel
sentence `"There are no entries matching your query"` anywhere — even inside
a data row — is classified as the empty-result case `("None", false)` by both
table parsers; only data rows containing at most a proper fragment of the
sentence leave the output classified as having entries. -/
theorem table_sentinel_whole_output (output : String)
    (h : strContains output tableSentinel = true) :
    parse_lun_output output = ("None", false)
    ∧ parse_volume_output output = ("None", false) := by
  constructor <;> simp [parse_lun_output, parse_volume_output, h]

/-- Witness for the amended C3 at a concrete output whose only data row
contains the full sentinel sentence. -/
theorem table_sentinel_whole_output_witness :
    parse_lun_output "x There are no entries matching your query x" = ("None", false) :=
  (table_sentinel_whole_output "x There are no entries matching your query x" (by decide)).1

/-- Claim C4.  On a non-empty, non-sentinel output: the LUN parser returns all
non-blank stripped lines joined with `flagged = true`; the volume parser's
message is the data lines with the first two dropped, and its flag is `true`
exactly when there are at least three non-blank lines (so exactly two
non-blank lines give `flagged = false`). -/
theorem table_parsers_nonsentinel_spec (output : String)
    (h1 : strTrim output ≠ "") (h2 : strContains output tableSentinel = false) :
    parse_lun_output output = (joinWith "\n" (dataLines output), true)
    ∧ (parse_volume_output output).1 = joinWith "\n" ((dataLines output).drop 2)
    ∧ ((parse_volume_output output).2 = true ↔ 2 < (dataLines output).length) := by
  have hcond : ¬(strTrim output = "" ∨ strContains output tableSentinel = true) := by
    simp [h1, h2]
  refine ⟨?_, ?_, ?_⟩
  · simp [parse_lun_output, h1, h2]
  · simp [parse_volume_output, h1, h2]
  · by_cases hl : 2 < (dataLines output).length
      <;> simp [parse_volume_output, h1, h2, hl]

/-- Witness for C4 at the concrete output `"a\nb\nc"` (three data lines). -/
theorem table_parsers_nonsentinel_spec_witness :
    parse_lun_output "a\nb\nc" = ("a\nb\nc", true)
    ∧ (parse_volume_output "a\nb\nc").2 = true := by
  have h := table_parsers_nonsentinel_spec "a\nb\nc" (by decide) (by decide)
  exact ⟨h.1.trans (by decide), h.2.2.mpr (by decide)⟩

/-- The command loop never populates both components: the results side is
`none` exactly when an error is recorded. -/
theorem runCommandsGo_none_iff (exec : String → Except String String)
    (l : List String) : ∀ acc : ResultsMap,
    ((runCommandsGo exec l acc).1 = none ↔ ∃ e, (runCommandsGo exec l acc).2 = some e) := by
  induction l with
  | nil => intro acc; simp [runCommandsGo]
  | cons c rest ih =>
    intro acc
    cases hx : exec c with
    | error e => simp [runCommandsGo, hx]
    | ok out =>
      cases hc : classifyCommand c (strTrim out) with
      | some r =>
        simpa [runCommandsGo, hx, hc] using ih ((c, r) :: acc)
      | none =>
        simpa [runCommandsGo, hx, hc] using ih acc

/-- If any command in the list raises, the accumulated partial results are
discarded: the results side of the bundle is `none`. -/
theorem runCommandsGo_fail (exec : String → Except String String)
    (l : List String) : ∀ acc : ResultsMap,
    (∃ c ∈ l, ∃ e, exec c = Except.error e) → (runCommandsGo exec l acc).1 = none := by
  induction l with
  | nil =>
    intro acc h
    obtain ⟨c, hc, _⟩ := h
    simp at hc
  | cons c rest ih =>
    intro acc h
    cases hx : exec c with
    | error e => simp [runCommandsGo, hx]
    | ok out =>
      have hrest : ∃ c0 ∈ rest, ∃ e, exec c0 = Except.error e := by
        obtain ⟨c0, hc0, e0, he0⟩ := h
        rcases List.mem_cons.mp hc0 with hh | hh
        · subst hh; rw [hx] at he0; exact absurd he0 (by simp)
        · exact ⟨c0, hh, e0, he0⟩
      cases hc : classifyCommand c (strTrim out) with
      | some r => simpa [runCommandsGo, hx, hc] using ih ((c, r) :: acc) hrest
      | none => simpa [runCommandsGo, hx, hc] using ih acc hrest

/-- `mkEntry` always populates exactly one of the two keys. -/
theorem mkEntry_exclusive (p : Option ResultsMap × Option String) :
    entryExactlyOne (mkEntry p) := by
  cases hp : p.1 with
  | none => right; simp [mkEntry, hp]
  | some rs =>
    by_cases he : rs.isEmpty = true
    · right; simp [mkEntry, hp, he]
    · left; simp [mkEntry, hp, he]

/-- Claim C6.  (1) `run_commands` records a results bundle exactly when no
error is recorded; (2) a connect/auth exception short-circuits to a single
error string; (3) an exception in any catalog command discards all partial
per-command results; (4) the per-cluster entry built by `main` from the
bundle holds exactly one of the `"results"` / `"error"` keys; (5) in the
aggregated report every cluster entry satisfies that exclusivity. -/
theorem scan_bundle_exclusive (connect : Except String Unit)
    (exec : String → Except String String) :
    ((run_commands connect exec).1 = none ↔ ∃ e, (run_commands connect exec).2 = some e)
    ∧ (∀ e, connect = Except.error e → run_commands connect exec = (none, some e))
    ∧ ((∃ c ∈ commandsList, ∃ e, exec c = Except.error e) →
        (run_commands connect exec).1 = none)
    ∧ entryExactlyOne (mkEntry (run_commands connect exec))
    ∧ (∀ args clusters scan data, mainAggregate args clusters scan = Except.ok data →
        ∀ q ∈ data, entryExactlyOne q.2) := by
  refine ⟨?_, ?_, ?_, ?_, ?_⟩
  · cases hcn : connect with
    | error e => simp [run_commands, hcn]
    | ok u => simpa [run_commands, hcn] using runCommandsGo_none_iff exec commandsList []
  · intro e he; simp [run_commands, he]
  · intro hfail
    cases hcn : connect with
    | error e => simp [run_commands, hcn]
    | ok u => simpa [run_commands, hcn] using runCommandsGo_fail exec commandsList [] hfail
  · exact mkEntry_exclusive _
  · intro args clusters scan data hok q hq
    unfold mainAggregate at hok
    by_cases hmode : (args.perClusterEmail && args.combinedEmail) = true
    · simp [hmode] at hok
    · by_cases hsel : (filterClusters args.clusterFilter clusters).isEmpty = true
      · simp [hmode, hsel] at hok
      · simp [hmode, hsel] at hok
        subst hok
        obtain ⟨c, _, hc⟩ := List.mem_map.mp hq
        rw [← hc]
        exact mkEntry_exclusive _

/-- Witness for C6: a failed connection and a failed command execution, each
at a concrete input. -/
theorem scan_bundle_exclusive_witness :
    run_commands (Except.error "auth failed") (fun _ => Except.ok "")
      = (none, some "auth failed")
    ∧ (run_commands (Except.ok ()) (fun _ => Except.error "timeout")).1 = none := by
  constructor
  · exact (scan_bundle_exclusive (Except.error "auth failed")
      (fun _ => Except.ok "")).2.1 "auth failed" rfl
  · exact (scan_bundle_exclusive (Except.ok ()) (fun _ => Except.error "timeout")).2.2.1
      ⟨"system health alert show", by simp [commandsList], "timeout", rfl⟩

/-- Claim C7.  `main` rejects the configuration with both e-mail modes set —
and does so with no cluster scanned, whatever the clusters and their scan
behaviour are — and `send_email` raises instead of sending whenever the
resolved `to` and `cc` lists are both empty. -/
theorem dispatch_rejections (args : Args) (clusters : List ClusterCfg)
    (scan : String → Option ResultsMap × Option String)
    (to_list cc_list : List String) :
    (args.perClusterEmail = true → args.combinedEmail = true →
      mainAggregate args clusters scan
        = Except.error "Choose either --per-cluster-email OR --combined-email, not both.")
    ∧ (to_list = [] → cc_list = [] →
      send_email to_list cc_list
        = Except.error "No recipients resolved (both To and Cc are empty).") := by
  constructor
  · intro h1 h2
    simp [mainAggregate, h1, h2]
  · intro h1 h2
    subst h1; subst h2
    rfl

/-- Witness for C7 at a concrete configuration with both modes set and a
concrete empty recipient resolution. -/
theorem dispatch_rejections_witness :
    mainAggregate ⟨true, true, []⟩ [] (fun _ => (none, none))
      = Except.error "Choose either --per-cluster-email OR --combined-email, not both."
    ∧ send_email [] []
      = Except.error "No recipients resolved (both To and Cc are empty)." := by
  have h := dispatch_rejections ⟨true, true, []⟩ [] (fun _ => (none, none)) [] []
  exact ⟨h.1 rfl rfl, h.2 rfl rfl⟩

/-- Claim C8.  Recipient resolution falls back field-by-field: the resolved
`to` is the cluster's own `to` whenever it is non-empty and the default `to`
otherwise, and independently the resolved `cc` is the cluster's own `cc`
whenever non-empty and the default `cc` otherwise. -/
theorem recipients_fallback_independent (c : ClusterCfg) (d : DefaultsCfg) :
    (ensure_list c.toRecips ≠ [] →
      (resolve_recipients c d).1 = ensure_list c.toRecips)
    ∧ (ensure_list c.toRecips = [] →
      (resolve_recipients c d).1 = ensure_list d.toRecips)
    ∧ (ensure_list c.ccRecips ≠ [] →
      (resolve_recipients c d).2 = ensure_list c.ccRecips)
    ∧ (ensure_list c.ccRecips = [] →
      (resolve_recipients c d).2 = ensure_list d.ccRecips) := by
  refine ⟨fun h => ?_, fun h => ?_, fun h => ?_, fun h => ?_⟩
    <;> simp [resolve_recipients, List.isEmpty_iff, h]

/-- Witness for C8: a cluster that sets only `to` keeps its own `to` and
still inherits the default `cc`. -/
theorem recipients_fallback_independent_witness :
    resolve_recipients
        ⟨"c1", none, some (RecipVal.strlist ["a@x"]), none⟩
        ⟨some (RecipVal.strlist ["dt@x"]), some (RecipVal.strlist ["dc@x"])⟩
      = (["a@x"], ["dc@x"]) := by
  have h := recipients_fallback_independent
    ⟨"c1", none, some (RecipVal.strlist ["a@x"]), none⟩
    ⟨some (RecipVal.strlist ["dt@x"]), some (RecipVal.strlist ["dc@x"])⟩
  have h1 := h.1 (by decide)
  have h4 := h.2.2.2 (by decide)
  exact Prod.ext h1 h4

/-- Row-by-row description of the rendering loop, for a fixed column list. -/
theorem reportRows_forall₂ (cols : List String) (l : List (String × Entry)) :
    List.Forall₂ (fun (p : String × Entry) (row : ReportRow) =>
      (∀ e, p.2.2 = some e → row = ReportRow.errorRow p.1 cols.length e)
      ∧ (p.2.2 = none → ∃ cells, row = ReportRow.dataRow p.1 cells
          ∧ cells.length = cols.length
          ∧ ∀ i (hc : i < cells.length) (hk : i < cols.length),
              cells.get ⟨i, hc⟩ =
                match (p.2.1.getD []).lookup (cols.get ⟨i, hk⟩) with
                | none => Cell.na
                | some (msg, true) => Cell.alarm (replaceNewlines msg)
                | some (msg, false) => Cell.plain msg))
      l (l.map (rowFor cols)) := by
  induction l with
  | nil => exact List.Forall₂.nil
  | cons p rest ih =>
    refine List.Forall₂.cons ⟨?_, ?_⟩ ih
    · intro e he
      simp [rowFor, he]
    · intro he
      refine ⟨cols.map (renderCell (p.2.1.getD [])), by simp [rowFor, he], by simp, ?_⟩
      intro i hc hk
      have hg : (cols.map (renderCell (p.2.1.getD []))).get ⟨i, hc⟩
          = renderCell (p.2.1.getD []) (cols.get ⟨i, hk⟩) := by
        simp [List.get_eq_getElem, List.getElem_map]
      rw [hg]
      unfold renderCell
      cases hlk : (p.2.1.getD []).lookup (cols.get ⟨i, hk⟩) with
      | none => rfl
      | some mf =>
        cases mf with
        | mk msg fl => cases fl <;> rfl

/-- Claim C9.  The report's column list is sorted and contains exactly the
command identifiers appearing in some non-error bundle; an error entry
renders as a single cell spanning all data columns with the error text; a
results entry renders one cell per column — `N/A` when the bundle lacks the
command, styled alarm text when `show_cmd` is set, the plain message
otherwise. -/
theorem report_builder_spec (data : List (String × Entry))
    (hwf : ∀ p ∈ data, entryExactlyOne p.2) :
    (∀ cmd, cmd ∈ reportColumns data ↔
      ∃ p ∈ data, ∃ rs, p.2.1 = some rs ∧ p.2.2 = none ∧ cmd ∈ rs.map Prod.fst)
    ∧ List.Sorted (fun a b => a ≤ b) (reportColumns data)
    ∧ List.Forall₂ (fun (p : String × Entry) (row : ReportRow) =>
        (∀ e, p.2.2 = some e → row = ReportRow.errorRow p.1 (reportColumns data).length e)
        ∧ (p.2.2 = none → ∃ cells, row = ReportRow.dataRow p.1 cells
            ∧ cells.length = (reportColumns data).length
            ∧ ∀ i (hc : i < cells.length) (hk : i < (reportColumns data).length),
                cells.get ⟨i, hc⟩ =
                  match (p.2.1.getD []).lookup ((reportColumns data).get ⟨i, hk⟩) with
                  | none => Cell.na
                  | some (msg, true) => Cell.alarm (replaceNewlines msg)
                  | some (msg, false) => Cell.plain msg))
        data (buildReportRows data) := by
  refine ⟨?_, ?_, ?_⟩
  · intro cmd
    constructor
    · intro hmem
      unfold reportColumns at hmem
      have h1 : cmd ∈ (observedCommands data).dedup :=
        (List.Perm.mem_iff (List.perm_insertionSort _ _)).mp hmem
      have h2 : cmd ∈ observedCommands data := List.mem_dedup.mp h1
      unfold observedCommands at h2
      obtain ⟨p, hp, hin⟩ := List.mem_flatMap.mp h2
      cases h21 : p.2.1 with
      | none => rw [h21] at hin; simp [entryKeys] at hin
      | some rs =>
        rw [h21] at hin
        simp only [entryKeys] at hin
        by_cases he : rs.isEmpty = true
        · rw [if_pos he] at hin; simp at hin
        · rw [if_neg he] at hin
          rcases hwf p hp with ⟨_, hn⟩ | ⟨hn, _⟩
          · exact ⟨p, hp, rs, h21, hn, hin⟩
          · rw [h21] at hn; simp at hn
    · rintro ⟨p, hp, rs, h21, _, hin⟩
      unfold reportColumns
      rw [List.Perm.mem_iff (List.perm_insertionSort _ _)]
      apply List.mem_dedup.mpr
      unfold observedCommands
      apply List.mem_flatMap.mpr
      refine ⟨p, hp, ?_⟩
      rw [h21]
      simp only [entryKeys]
      have hne : rs.isEmpty = false := by
        cases rs with
        | nil => simp at hin
        | cons a as => rfl
      rw [if_neg (by simp [hne])]
      exact hin
  · exact List.sorted_insertionSort _ _
  · exact reportRows_forall₂ (reportColumns data) data

/-- Witness for C9 at a concrete aggregated structure: one healthy-ish
results bundle and one error entry. -/
theorem report_builder_spec_witness :
    "cmd a" ∈ reportColumns
        [("A", (some [("cmd b", ("bad\nstate", true)), ("cmd a", ("None", false))], none)),
         ("B", (none, some (some "boom")))]
    ∧ List.Sorted (fun a b => a ≤ b) (reportColumns
        [("A", (some [("cmd b", ("bad\nstate", true)), ("cmd a", ("None", false))], none)),
         ("B", (none, some (some "boom")))]) := by
  have h := report_builder_spec
    [("A", (some [("cmd b", ("bad\nstate", true)), ("cmd a", ("None", false))], none)),
     ("B", (none, some (some "boom")))]
    (by decide)
  refine ⟨(h.1 "cmd a").mpr ?_, h.2.1⟩
  exact ⟨("A", (some [("cmd b", ("bad\nstate", true)), ("cmd a", ("None", false))], none)),
    List.mem_cons_self _ _,
    [("cmd b", ("bad\nstate", true)), ("cmd a", ("None", false))], rfl, rfl, by simp⟩

/-- The enabled test rejects a cluster exactly when the field holds the
Python boolean `False`. -/
theorem enabled_is_false_eq_false_iff (c : ClusterCfg) :
    enabled_is_false c = false ↔ c.enabled ≠ some (PyVal.pybool false) := by
  cases h : c.enabled with
  | none => simp [enabled_is_false, h]
  | some v =>
    cases v with
    | pybool b => cases b <;> simp [enabled_is_false, h]
    | pyint n => simp [enabled_is_false, h]
    | pystr s => simp [enabled_is_false, h]
    | pynone => simp [enabled_is_false, h]

/-- Claim C10.  With no name filter, the cluster-selection loop keeps a cluster
exactly when its `enabled` field is not the Python boolean `False`; in
particular the falsy non-boolean values `0`, `""`, `"no"`, `None`, and a
missing field all leave the cluster included, and only the boolean `False`
excludes it. -/
theorem enabled_filter_spec (clusters : List ClusterCfg) (c : ClusterCfg) :
    (c ∈ filterClusters [] clusters
      ↔ (c ∈ clusters ∧ c.enabled ≠ some (PyVal.pybool false)))
    ∧ enabled_is_false ⟨"x", some (PyVal.pyint 0), none, none⟩ = false
    ∧ enabled_is_false ⟨"x", some (PyVal.pystr ""), none, none⟩ = false
    ∧ enabled_is_false ⟨"x", some (PyVal.pystr "no"), none, none⟩ = false
    ∧ enabled_is_false ⟨"x", some PyVal.pynone, none, none⟩ = false
    ∧ enabled_is_false ⟨"x", none, none, none⟩ = false
    ∧ enabled_is_false ⟨"x", some (PyVal.pybool false), none, none⟩ = true := by
  refine ⟨?_, rfl, rfl, rfl, rfl, rfl, rfl⟩
  simp [filterClusters, List.mem_filter, ← enabled_is_false_eq_false_iff]

/-- Witness for C10: a cluster whose `enabled` field is the falsy integer `0`
is still selected. -/
theorem enabled_filter_spec_witness :
    (⟨"x", some (PyVal.pyint 0), none, none⟩ : ClusterCfg)
      ∈ filterClusters [] [⟨"x", some (PyVal.pyint 0), none, none⟩] :=
  (enabled_filter_spec [⟨"x", some (PyVal.pyint 0), none, none⟩]
    ⟨"x", some (PyVal.pyint 0), none, none⟩).1.mpr ⟨by decide, by decide⟩

end NetAppHealth
